import Mathlib

/-!
A shallow embedding of the V-Pet simulation core (stat decay, sleep cycle,
offline catch-up, action resolution, report grading), translated from the
Dashboard/Index components, the per-pet configuration catalog and the report
logic module. Stats are modelled as rationals: every number flowing through
these code paths is an exact decimal. Wall-clock inputs (hour of day, elapsed
minutes, timestamps) are explicit parameters.
-/

namespace VPet

/-- The five-field stat vector of a pet (the `stats` object of the `Pet`
interface in the dashboard component). -/
structure PetStats where
  hunger : ℚ
  happiness : ℚ
  hygiene : ℚ
  energy : ℚ
  thirst : ℚ

/-- The closed set of pet archetypes (the `PetType` union in the config). -/
inductive PetType where
  | dog
  | cat
  | parrot
  | rabbit
  deriving DecidableEq

/-- Per-archetype stat decay rates (the `decayRates` record: minutes per 1%
for hunger/happiness/energy/thirst, hours per 1% for hygiene). -/
structure DecayRatesCfg where
  hunger : ℚ
  happiness : ℚ
  hygiene : ℚ
  energy : ℚ
  thirst : ℚ

/-- Sleep window in 24-hour format (the `sleepHours` record; `end` is a
reserved word in Lean, so the field is named `endH`). -/
structure SleepHoursCfg where
  start : ℕ
  endH : ℕ

/-- Configuration of the feed action. Optional stat deltas are `Option ℚ`
because the corresponding TS fields are optional and are guarded by
truthiness checks at the call sites. -/
structure FeedCfg where
  cost : ℚ
  duration : ℚ
  sHunger : ℚ
  sHappiness : Option ℚ
  sEnergy : Option ℚ
  triggerThreshold : ℚ

/-- Configuration of the water action. -/
structure WaterCfg where
  cost : ℚ
  duration : ℚ
  sThirst : ℚ
  sHappiness : Option ℚ
  triggerThreshold : ℚ

/-- Configuration of the exercise action (walk/play/fly/run by archetype). -/
structure ExerciseCfg where
  cost : ℚ
  duration : ℚ
  sEnergy : ℚ
  sHappiness : ℚ
  sHygiene : Option ℚ
  sThirst : ℚ
  sHunger : ℚ
  minEnergy : ℚ
  cooldownHours : ℚ

/-- Configuration of the play action. -/
structure PlayCfg where
  cost : ℚ
  duration : ℚ
  sHappiness : ℚ
  sEnergy : ℚ
  sHygiene : Option ℚ
  sThirst : ℚ
  sHunger : ℚ
  requiresToy : Bool
  minEnergy : ℚ

/-- Configuration of the bath action. -/
structure BathCfg where
  cost : ℚ
  duration : ℚ
  sHygiene : ℚ
  sHappiness : Option ℚ
  triggerThreshold : ℚ
  cooldownDays : ℚ

/-- Configuration of the grooming action (trim nails / brush / trim beak). -/
structure GroomingCfg where
  cost : ℚ
  duration : ℚ
  sHygiene : ℚ
  sHappiness : Option ℚ
  triggerThreshold : ℚ
  cooldownDays : ℚ

/-- Configuration of the vet visit action. -/
structure VetCfg where
  cost : ℚ
  duration : ℚ
  sHygiene : ℚ
  sHappiness : ℚ
  sEnergy : ℚ

/-- The per-archetype action catalog. -/
structure ActionsCfg where
  feed : FeedCfg
  water : WaterCfg
  exercise : ExerciseCfg
  play : PlayCfg
  bath : BathCfg
  grooming : GroomingCfg
  vetVisit : VetCfg

/-- One entry of the `petConfigs` catalog. -/
structure PetConfig where
  decayRates : DecayRatesCfg
  sleepHours : SleepHoursCfg
  initialStats : PetStats
  actions : ActionsCfg

/-- The dog entry of `petConfigs`. -/
def dogConfig : PetConfig :=
  { decayRates := { hunger := 6.75, happiness := 45, hygiene := 120, energy := 10, thirst := 3.5 }
    sleepHours := { start := 22, endH := 6 }
    initialStats := { hunger := 80, happiness := 80, hygiene := 90, energy := 80, thirst := 80 }
    actions :=
      { feed := { cost := 0, duration := 5, sHunger := 90, sHappiness := some 5,
                  sEnergy := some 12, triggerThreshold := 35 }
        water := { cost := 0, duration := 5, sThirst := 80, sHappiness := some 3,
                   triggerThreshold := 70 }
        exercise := { cost := 0, duration := 5, sEnergy := -20, sHappiness := 15,
                      sHygiene := some (-7), sThirst := -35, sHunger := -8,
                      minEnergy := 20, cooldownHours := 12 }
        play := { cost := 0, duration := 5, sHappiness := 15, sEnergy := -20,
                  sHygiene := some (-3), sThirst := -30, sHunger := -6,
                  requiresToy := true, minEnergy := 20 }
        bath := { cost := 2, duration := 35 * 60, sHygiene := 100, sHappiness := some (-5),
                  triggerThreshold := 35, cooldownDays := 14 }
        grooming := { cost := 10, duration := 30 * 60, sHygiene := 15, sHappiness := some (-3),
                      triggerThreshold := 35, cooldownDays := 30 }
        vetVisit := { cost := 100, duration := 45 * 60, sHygiene := 30, sHappiness := 10,
                      sEnergy := 20 } } }

/-- The cat entry of `petConfigs`. -/
def catConfig : PetConfig :=
  { decayRates := { hunger := 8, happiness := 50, hygiene := 180, energy := 12, thirst := 4 }
    sleepHours := { start := 20, endH := 6 }
    initialStats := { hunger := 75, happiness := 75, hygiene := 95, energy := 70, thirst := 75 }
    actions :=
      { feed := { cost := 2, duration := 5, sHunger := 85, sHappiness := some 3,
                  sEnergy := some 10, triggerThreshold := 40 }
        water := { cost := 0, duration := 5, sThirst := 75, sHappiness := some 2,
                   triggerThreshold := 70 }
        exercise := { cost := 0, duration := 5, sEnergy := -15, sHappiness := 20,
                      sHygiene := some (-2), sThirst := -30, sHunger := -7,
                      minEnergy := 15, cooldownHours := 8 }
        play := { cost := 0, duration := 5, sHappiness := 20, sEnergy := -15,
                  sHygiene := some (-2), sThirst := -25, sHunger := -5,
                  requiresToy := true, minEnergy := 15 }
        bath := { cost := 3, duration := 40 * 60, sHygiene := 100, sHappiness := some (-10),
                  triggerThreshold := 30, cooldownDays := 21 }
        grooming := { cost := 5, duration := 20 * 60, sHygiene := 20, sHappiness := some 5,
                      triggerThreshold := 40, cooldownDays := 7 }
        vetVisit := { cost := 120, duration := 45 * 60, sHygiene := 25, sHappiness := 5,
                      sEnergy := 15 } } }

/-- The parrot entry of `petConfigs`. -/
def parrotConfig : PetConfig :=
  { decayRates := { hunger := 5, happiness := 30, hygiene := 200, energy := 8, thirst := 3 }
    sleepHours := { start := 20, endH := 7 }
    initialStats := { hunger := 70, happiness := 70, hygiene := 85, energy := 75, thirst := 70 }
    actions :=
      { feed := { cost := 4, duration := 5, sHunger := 80, sHappiness := some 8,
                  sEnergy := some 15, triggerThreshold := 30 }
        water := { cost := 0, duration := 5, sThirst := 75, sHappiness := some 2,
                   triggerThreshold := 65 }
        exercise := { cost := 0, duration := 5, sEnergy := -25, sHappiness := 25,
                      sHygiene := some (-5), sThirst := -40, sHunger := -10,
                      minEnergy := 25, cooldownHours := 6 }
        play := { cost := 0, duration := 5, sHappiness := 25, sEnergy := -20,
                  sHygiene := some (-3), sThirst := -35, sHunger := -8,
                  requiresToy := true, minEnergy := 20 }
        bath := { cost := 1, duration := 15 * 60, sHygiene := 100, sHappiness := some 10,
                  triggerThreshold := 40, cooldownDays := 3 }
        grooming := { cost := 15, duration := 25 * 60, sHygiene := 20, sHappiness := some (-5),
                      triggerThreshold := 40, cooldownDays := 60 }
        vetVisit := { cost := 150, duration := 50 * 60, sHygiene := 35, sHappiness := 15,
                      sEnergy := 25 } } }

/-- The rabbit entry of `petConfigs`. -/
def rabbitConfig : PetConfig :=
  { decayRates := { hunger := 4, happiness := 40, hygiene := 150, energy := 9, thirst := 3.5 }
    sleepHours := { start := 22, endH := 6 }
    initialStats := { hunger := 85, happiness := 75, hygiene := 80, energy := 70, thirst := 80 }
    actions :=
      { feed := { cost := 2, duration := 5, sHunger := 75, sHappiness := some 5,
                  sEnergy := some 8, triggerThreshold := 50 }
        water := { cost := 0, duration := 5, sThirst := 80, sHappiness := some 2,
                   triggerThreshold := 70 }
        exercise := { cost := 0, duration := 5, sEnergy := -18, sHappiness := 18,
                      sHygiene := some (-8), sThirst := -32, sHunger := -9,
                      minEnergy := 18, cooldownHours := 10 }
        play := { cost := 0, duration := 5, sHappiness := 18, sEnergy := -18,
                  sHygiene := some (-4), sThirst := -28, sHunger := -7,
                  requiresToy := true, minEnergy := 18 }
        bath := { cost := 1, duration := 20 * 60, sHygiene := 90, sHappiness := some (-8),
                  triggerThreshold := 40, cooldownDays := 30 }
        grooming := { cost := 8, duration := 25 * 60, sHygiene := 25, sHappiness := some 3,
                      triggerThreshold := 40, cooldownDays := 14 }
        vetVisit := { cost := 110, duration := 40 * 60, sHygiene := 30, sHappiness := 8,
                      sEnergy := 18 } } }

/-- Lookup into the `petConfigs` catalog. The TS lookup falls back to the dog
profile for unknown strings; `PetType` is closed, so no fallback is needed. -/
def petConfigFor : PetType → PetConfig
  | .dog => dogConfig
  | .cat => catConfig
  | .parrot => parrotConfig
  | .rabbit => rabbitConfig

/-! ## Sleep cycle and daytime predicates -/

/-- The sleep predicate of `checkSleepCycle`: asleep iff the current hour
falls in the profile sleep window, with start.gt.end meaning the window
crosses midnight. -/
def shouldBeSleeping (cfg : PetConfig) (currentHour : ℕ) : Bool :=
  if cfg.sleepHours.start > cfg.sleepHours.endH then
    decide (currentHour ≥ cfg.sleepHours.start) || decide (currentHour < cfg.sleepHours.endH)
  else
    decide (currentHour ≥ cfg.sleepHours.start) && decide (currentHour < cfg.sleepHours.endH)

/-- The independent daytime check computed inside the decay interval from the
minute of day (used only to pick the energy drain/regen branch). -/
def isDaytimeAt (cfg : PetConfig) (totalMinutesFromMidnight : ℕ) : Bool :=
  let sleepStartMinutes := cfg.sleepHours.start * 60
  let sleepEndMinutes := cfg.sleepHours.endH * 60
  if cfg.sleepHours.start > cfg.sleepHours.endH then
    decide (totalMinutesFromMidnight < sleepStartMinutes) &&
      decide (totalMinutesFromMidnight ≥ sleepEndMinutes)
  else
    decide (totalMinutesFromMidnight ≥ sleepEndMinutes) &&
      decide (totalMinutesFromMidnight < sleepStartMinutes)

/-! ## Decay clock (the 30-second interval) -/

/-- One tick of the decay interval in the awake branch (no active action, not
sleeping). `isDaytime` is the daytime flag computed by `isDaytimeAt` and
`minutesSinceRest` is the elapsed time since the last ambient tick. -/
def decayTickAwake (cfg : PetConfig) (isDaytime : Bool) (minutesSinceRest : ℚ)
    (s : PetStats) : PetStats :=
  let hungerMultiplier : ℚ := if s.hunger < 25 then 1.5 else 1
  let hygieneMultiplier : ℚ := if s.hygiene < 40 then 1.5 else 1
  let decay := cfg.decayRates
  let energyChange : ℚ :=
    if isDaytime then -(1 / decay.energy) * 0.5
    else min 2 (minutesSinceRest / 10)
  { hunger := max 0 (s.hunger - (1 / decay.hunger) * 0.5)
    happiness := max 0 (s.happiness -
      ((1 / decay.happiness) * 0.5 * hungerMultiplier * hygieneMultiplier))
    hygiene := max 0 (s.hygiene - (1 / (decay.hygiene * 2)) * 0.5)
    energy := min 100 (max 0 (s.energy + energyChange))
    thirst := max 0 (s.thirst - (1 / decay.thirst) * 0.5) }

/-- The sleep duration in hours derived from the profile sleep window inside
the asleep decay branch. -/
def sleepDurationHours (cfg : PetConfig) : ℚ :=
  if cfg.sleepHours.start > cfg.sleepHours.endH then
    24 - (cfg.sleepHours.start : ℚ) + (cfg.sleepHours.endH : ℚ)
  else
    (cfg.sleepHours.endH : ℚ) - (cfg.sleepHours.start : ℚ)

/-- One tick of the decay interval in the asleep branch: hunger and thirst
interpolate toward floors 20 and 15 over the sleep duration, happiness and
hygiene decay at reduced rates, energy regenerates by 0.8 capped at 100. -/
def decayTickAsleep (cfg : PetConfig) (s : PetStats) : PetStats :=
  let totalSleepMinutes := sleepDurationHours cfg * 60
  let hungerAtSleep := s.hunger
  let targetHungerByMorning : ℚ := 20
  let hungerDecayRate := max 0 ((hungerAtSleep - targetHungerByMorning) / totalSleepMinutes)
  let decay := cfg.decayRates
  { hunger := max 20 (s.hunger - hungerDecayRate * 0.5)
    happiness := max 0 (s.happiness - ((1 / decay.happiness) * 0.5 * 0.3))
    hygiene := max 0 (s.hygiene - ((1 / (decay.hygiene * 2)) * 0.5 * 0.5))
    energy := min 100 (s.energy + 0.8)
    thirst := max 15 (s.thirst - ((s.thirst - 15) / totalSleepMinutes * 0.5)) }

/-! ## Offline catch-up -/

/-- The `calculateDecay` helper of the load effect: full-rate decay clamped at
zero, with a 20% effective rate when the current hour is in the nighttime band
and the rate is the hardcoded hunger (1) or happiness (0.5) rate. -/
def calculateDecay (currentHour : ℕ) (stat decayRate hours : ℚ) : ℚ :=
  let isNighttime := decide (currentHour ≥ 22) || decide (currentHour < 6)
  if isNighttime && (decide (decayRate = 1) || decide (decayRate = 0.5)) then
    max 0 (stat - decayRate * 0.2 * hours)
  else
    max 0 (stat - decayRate * hours)

/-- The `newStats` computation of the offline catch-up: bulk decay of the
saved stats over the elapsed hours with hardcoded per-hour rates. The saved
thirst goes through the `thirst OR 80` fallback, which replaces a falsy (zero)
saved value by 80. -/
def catchUpStats (currentHour : ℕ) (hoursElapsed : ℚ) (saved : PetStats) : PetStats :=
  { hunger := calculateDecay currentHour saved.hunger 1 hoursElapsed
    happiness := calculateDecay currentHour saved.happiness 0.5 hoursElapsed
    hygiene := calculateDecay currentHour saved.hygiene 0.3 hoursElapsed
    energy := calculateDecay currentHour saved.energy 0.4 hoursElapsed
    thirst := calculateDecay currentHour (if saved.thirst = 0 then 80 else saved.thirst) 2
      hoursElapsed }

/-! ## Range predicates -/

/-- A single stat lies in the documented [0,100] band. -/
def InRange01 (x : ℚ) : Prop := 0 ≤ x ∧ x ≤ 100

/-- All five stats lie in [0,100]. -/
def StatsInRange (s : PetStats) : Prop :=
  InRange01 s.hunger ∧ InRange01 s.happiness ∧ InRange01 s.hygiene ∧
    InRange01 s.energy ∧ InRange01 s.thirst

/-- The decay rates of a profile are nonnegative (true of all four catalog
entries; needed so that decay ticks never push a stat above 100). -/
def RatesNonneg (cfg : PetConfig) : Prop :=
  0 ≤ cfg.decayRates.hunger ∧ 0 ≤ cfg.decayRates.happiness ∧
    0 ≤ cfg.decayRates.hygiene ∧ 0 ≤ cfg.decayRates.energy ∧ 0 ≤ cfg.decayRates.thirst

/-! ## Report logic -/

/-- The per-keyword action counters built by `getActionCounts`. -/
structure ActionCounts where
  feed : ℕ
  water : ℕ
  walk : ℕ
  play : ℕ
  bath : ℕ
  vet : ℕ
  groom : ℕ
  deriving DecidableEq

/-- Substring test on character lists (the semantics of the JS
`String.includes` used by the keyword matcher). -/
def isSubOf : List Char → List Char → Bool
  | pat, [] => pat.isEmpty
  | pat, c :: rest => pat.isPrefixOf (c :: rest) || isSubOf pat rest

/-- ASCII lowercasing of a message (the `toLowerCase` call of the matcher; all
event messages on these paths are ASCII). -/
def lowerStr (s : String) : String := String.mk (s.toList.map Char.toLower)

/-- JS `lowercased.includes(pattern)` on an event message. -/
def msgIncludes (m pat : String) : Bool := isSubOf pat.toList m.toList

/-- One step of `getActionCounts`: bump every counter whose keyword list
matches the lowercased message. -/
def countEvent (c : ActionCounts) (msg : String) : ActionCounts :=
  let m := lowerStr msg
  let c := if msgIncludes m "feeding" || msgIncludes m "feed" then
    { c with feed := c.feed + 1 } else c
  let c := if msgIncludes m "water" || msgIncludes m "giving water" then
    { c with water := c.water + 1 } else c
  let c := if msgIncludes m "walk" || msgIncludes m "run" || msgIncludes m "fly" ||
      msgIncludes m "exercise" then { c with walk := c.walk + 1 } else c
  let c := if msgIncludes m "play" || msgIncludes m "playing" then
    { c with play := c.play + 1 } else c
  let c := if msgIncludes m "bath" || msgIncludes m "shower" || msgIncludes m "spot clean" then
    { c with bath := c.bath + 1 } else c
  let c := if msgIncludes m "vet" || msgIncludes m "checkup" then
    { c with vet := c.vet + 1 } else c
  let c := if msgIncludes m "trim" || msgIncludes m "brush" || msgIncludes m "groom" ||
      msgIncludes m "nail" || msgIncludes m "beak" then { c with groom := c.groom + 1 } else c
  c

/-- Derive action counts from the filtered event messages (`getActionCounts`). -/
def getActionCounts (events : List String) : ActionCounts :=
  events.foldl countEvent ⟨0, 0, 0, 0, 0, 0, 0⟩

/-- JS `Math.round` on the exact rational values produced here: round half
toward positive infinity. -/
def jsRound (q : ℚ) : ℤ := ⌊q + 1 / 2⌋

/-- The overall 0-100 report score (`getOverallScore`): average of the five
live stats plus a variety bonus of twice the number of nonzero counters among
feed, water, walk, play, bath and groom, capped at 10, the sum capped at 100
and rounded. -/
def getOverallScore (stats : PetStats) (c : ActionCounts) : ℤ :=
  let avgStat := (stats.hunger + stats.thirst + stats.happiness + stats.hygiene +
    stats.energy) / 5
  let variety := ([c.feed, c.water, c.walk, c.play, c.bath, c.groom].filter
    (fun x => decide (0 < x))).length
  let varietyBonus : ℚ := min 10 ((variety : ℚ) * 2)
  jsRound (min 100 (avgStat + varietyBonus))

/-- The letter grade threshold table (`getGrade`). -/
def getGrade (score : ℚ) : String :=
  if score ≥ 97 then "A+"
  else if score ≥ 93 then "A"
  else if score ≥ 90 then "A-"
  else if score ≥ 87 then "B+"
  else if score ≥ 83 then "B"
  else if score ≥ 80 then "B-"
  else if score ≥ 77 then "C+"
  else if score ≥ 73 then "C"
  else if score ≥ 70 then "C-"
  else if score ≥ 67 then "D+"
  else if score ≥ 63 then "D"
  else if score ≥ 60 then "D-"
  else "F"

/-- Rank of a letter grade, F lowest and A+ highest, used to state that the
grade mapping is monotone in the score. -/
def gradeRank (g : String) : ℕ :=
  if g = "A+" then 12
  else if g = "A" then 11
  else if g = "A-" then 10
  else if g = "B+" then 9
  else if g = "B" then 8
  else if g = "B-" then 7
  else if g = "C+" then 6
  else if g = "C" then 5
  else if g = "C-" then 4
  else if g = "D+" then 3
  else if g = "D" then 2
  else if g = "D-" then 1
  else 0

/-- The overall score as claim C4 words it, over the action-kind counters the
report derives: the variety bonus counts every distinct kind with a nonzero
counter, which per the derivation step includes the vet counter. -/
def claimOverallScore (stats : PetStats) (c : ActionCounts) : ℤ :=
  let avgStat := (stats.hunger + stats.thirst + stats.happiness + stats.hygiene +
    stats.energy) / 5
  let variety := ([c.feed, c.water, c.walk, c.play, c.bath, c.vet, c.groom].filter
    (fun x => decide (0 < x))).length
  let varietyBonus : ℚ := min 10 ((variety : ℚ) * 2)
  jsRound (min 100 (avgStat + varietyBonus))

/-- The amended variety count: distinct action kinds with a nonzero counter,
vet visits excluded, written as a sum of indicators. -/
def varietyAmended (c : ActionCounts) : ℕ :=
  (if 0 < c.feed then 1 else 0) + (if 0 < c.water then 1 else 0) +
    (if 0 < c.walk then 1 else 0) + (if 0 < c.play then 1 else 0) +
    (if 0 < c.bath then 1 else 0) + (if 0 < c.groom then 1 else 0)

/-- The overall score as amended: average of the five live stats plus
min(10, 2 x varietyAmended), capped at 100 and rounded. -/
def amendedOverallScore (stats : PetStats) (c : ActionCounts) : ℤ :=
  jsRound (min 100 ((stats.hunger + stats.thirst + stats.happiness + stats.hygiene +
    stats.energy) / 5 + min 10 ((varietyAmended c : ℚ) * 2)))

/-! ## Action clicks and completion stat deltas -/

/-- A partial stat update (the `statChanges` object a click handler builds and
the completion step spreads over the then-current stats). Absent fields leave
the completion-time value untouched. -/
structure StatChanges where
  hunger : Option ℚ := none
  happiness : Option ℚ := none
  hygiene : Option ℚ := none
  energy : Option ℚ := none
  thirst : Option ℚ := none

/-- The completion-time merge `\x7b ...currentPet.stats, ...statChanges \x7d`. -/
def applyStatChanges (s : PetStats) (c : StatChanges) : PetStats :=
  { hunger := c.hunger.getD s.hunger
    happiness := c.happiness.getD s.happiness
    hygiene := c.hygiene.getD s.hygiene
    energy := c.energy.getD s.energy
    thirst := c.thirst.getD s.thirst }

/-- JS truthiness of an optional numeric config field: absent and zero are
both falsy. -/
def optTruthy (o : Option ℚ) : Bool := decide (o.getD 0 ≠ 0)

/-- The statChanges built by the Feed click handler from the click-time
stats. -/
def feedStatChanges (f : FeedCfg) (s : PetStats) : StatChanges :=
  let base : StatChanges := { hunger := some (min 100 (s.hunger + f.sHunger)) }
  let base := if optTruthy f.sHappiness then
    { base with happiness := some (min 100 (s.happiness + f.sHappiness.getD 0)) } else base
  if optTruthy f.sEnergy then
    { base with energy := some (min 100 (s.energy + f.sEnergy.getD 0)) } else base

/-- The statChanges built by the Water click handler. -/
def waterStatChanges (w : WaterCfg) (s : PetStats) : StatChanges :=
  let base : StatChanges := { thirst := some (min 100 (s.thirst + w.sThirst)) }
  if optTruthy w.sHappiness then
    { base with happiness := some (min 100 (s.happiness + w.sHappiness.getD 0)) } else base

/-- The statChanges built by the exercise (walk/play/fly/run) click handler. -/
def exerciseStatChanges (e : ExerciseCfg) (s : PetStats) : StatChanges :=
  let energyCost := |e.sEnergy|
  let hygieneLoss := if optTruthy e.sHygiene then |e.sHygiene.getD 0| else 0
  let happinessGain := e.sHappiness
  let thirstDecrease := if e.sThirst = 0 then 0 else |e.sThirst|
  let hungerDecrease := if e.sHunger = 0 then 0 else |e.sHunger|
  let base : StatChanges :=
    { energy := some (max 0 (s.energy - energyCost))
      happiness := some (min 100 (s.happiness + happinessGain)) }
  let base := if 0 < hygieneLoss then
    { base with hygiene := some (max 0 (s.hygiene - hygieneLoss)) } else base
  let base := if 0 < thirstDecrease then
    { base with thirst := some (max 0 (s.thirst - thirstDecrease)) } else base
  if 0 < hungerDecrease then
    { base with hunger := some (max 0 (s.hunger - hungerDecrease)) } else base

/-- The statChanges built by the Play click handler. -/
def playStatChanges (p : PlayCfg) (s : PetStats) : StatChanges :=
  let energyCost := |p.sEnergy|
  let hygieneLoss := if optTruthy p.sHygiene then |p.sHygiene.getD 0| else 0
  let thirstDecrease := if p.sThirst = 0 then 0 else |p.sThirst|
  let hungerDecrease := if p.sHunger = 0 then 0 else |p.sHunger|
  let base : StatChanges :=
    { happiness := some (min 100 (s.happiness + p.sHappiness))
      energy := some (max 0 (s.energy - energyCost)) }
  let base := if 0 < hygieneLoss then
    { base with hygiene := some (max 0 (s.hygiene - hygieneLoss)) } else base
  let base := if 0 < thirstDecrease then
    { base with thirst := some (max 0 (s.thirst - thirstDecrease)) } else base
  if 0 < hungerDecrease then
    { base with hunger := some (max 0 (s.hunger - hungerDecrease)) } else base

/-- The statChanges built by the Buy Toy click handler. -/
def buyToyStatChanges (s : PetStats) : StatChanges :=
  { happiness := some (min 100 (s.happiness + 20)) }

/-- The statChanges built by the Bath click handler. -/
def bathStatChanges (b : BathCfg) (s : PetStats) : StatChanges :=
  let base : StatChanges := { hygiene := some (min 100 (s.hygiene + b.sHygiene)) }
  if optTruthy b.sHappiness then
    { base with happiness := some (max 0 (min 100 (s.happiness + b.sHappiness.getD 0))) }
  else base

/-- The statChanges built by the Vet Visit click handler. -/
def vetStatChanges (v : VetCfg) (s : PetStats) : StatChanges :=
  { hygiene := some (min 100 (s.hygiene + v.sHygiene))
    happiness := some (min 100 (s.happiness + v.sHappiness))
    energy := some (min 100 (s.energy + v.sEnergy)) }

/-- The statChanges built by the grooming click handler. -/
def groomingStatChanges (g : GroomingCfg) (s : PetStats) : StatChanges :=
  let base : StatChanges := { hygiene := some (min 100 (s.hygiene + g.sHygiene)) }
  if optTruthy g.sHappiness then
    { base with happiness := some (max 0 (min 100 (s.happiness + g.sHappiness.getD 0))) }
  else base

/-- The action kinds of the dashboard action grid. -/
inductive AKind where
  | feed
  | water
  | exercise
  | play
  | buyToy
  | bath
  | vet
  | grooming
  deriving DecidableEq

/-- The statChanges the click handler of each kind builds from the click-time
stats of the given profile. -/
def statChangesFor (k : AKind) (cfg : PetConfig) (s : PetStats) : StatChanges :=
  match k with
  | .feed => feedStatChanges cfg.actions.feed s
  | .water => waterStatChanges cfg.actions.water s
  | .exercise => exerciseStatChanges cfg.actions.exercise s
  | .play => playStatChanges cfg.actions.play s
  | .buyToy => buyToyStatChanges s
  | .bath => bathStatChanges cfg.actions.bath s
  | .vet => vetStatChanges cfg.actions.vetVisit s
  | .grooming => groomingStatChanges cfg.actions.grooming s

/-- The config stat deltas that the click handlers add under a plain
min-100 cap (no zero floor) are nonnegative. All catalog entries satisfy
this; it keeps those fields at or above zero. -/
def DeltasOK (cfg : PetConfig) : Prop :=
  0 ≤ cfg.actions.feed.sHunger ∧ 0 ≤ cfg.actions.feed.sHappiness.getD 0 ∧
    0 ≤ cfg.actions.feed.sEnergy.getD 0 ∧
    0 ≤ cfg.actions.water.sThirst ∧ 0 ≤ cfg.actions.water.sHappiness.getD 0 ∧
    0 ≤ cfg.actions.exercise.sHappiness ∧ 0 ≤ cfg.actions.play.sHappiness ∧
    0 ≤ cfg.actions.bath.sHygiene ∧ 0 ≤ cfg.actions.grooming.sHygiene ∧
    0 ≤ cfg.actions.vetVisit.sHygiene ∧ 0 ≤ cfg.actions.vetVisit.sHappiness ∧
    0 ≤ cfg.actions.vetVisit.sEnergy

/-! ## The dashboard state and the attempt step -/

/-- The slice of the dashboard state an action click can read or write. -/
structure DashState where
  petType : PetType
  name : String
  stats : PetStats
  activeAction : Option String
  actionTimer : ℚ
  totalSpent : ℚ
  isSleeping : Bool
  hasToy : Bool
  feedCount : ℕ
  lastWalkTime : ℚ
  lastBathTime : ℚ
  lastTrimNailsTime : ℚ
  events : List String

/-- The event-log append: newest first, kept to the most recent 20. -/
def addEventL (msg : String) (events : List String) : List String :=
  (msg :: events).take 20

/-- The feed cost, with the archetype-specific dog override: free below 120
lifetime feeds, a flat 25 surcharge from the 121st attempt on. -/
def feedCostFor (t : PetType) (feedCount : ℕ) : ℚ :=
  if t = .dog then (if 120 ≤ feedCount then 25 else 0)
  else (petConfigFor t).actions.feed.cost

/-- The feed duration, with the dog restock override: 60 extra seconds on top
of the 5-second base from the 121st attempt on. -/
def feedDurationFor (t : PetType) (feedCount : ℕ) : ℚ :=
  if t = .dog ∧ 120 ≤ feedCount then 5 + 60
  else (petConfigFor t).actions.feed.duration

/-- Whether the exercise countdown is cleared (the walk cooldown elapsed or
never stamped), from the countdown-refresh effect. Times are epoch
milliseconds. -/
def walkCountdownIsNone (cfg : PetConfig) (now lastWalkTime : ℚ) : Bool :=
  decide ((now - lastWalkTime) / (1000 * 60 * 60) ≥ cfg.actions.exercise.cooldownHours) ||
    decide (lastWalkTime = 0)

/-- The disabled predicate of each action tile. A disabled tile never fires
its click handler, so this is the precondition gate of an attempt. -/
def disabledFor (k : AKind) (st : DashState) (now : ℚ) : Bool :=
  let cfg := petConfigFor st.petType
  let active := st.activeAction.isSome
  match k with
  | .feed => active || st.isSleeping ||
      decide (st.stats.hunger ≥ cfg.actions.feed.triggerThreshold)
  | .water => active || st.isSleeping ||
      decide (st.stats.thirst ≥ cfg.actions.water.triggerThreshold)
  | .exercise => active || st.isSleeping ||
      decide (st.stats.energy < cfg.actions.exercise.minEnergy) ||
      (decide (st.lastWalkTime > 0) && !walkCountdownIsNone cfg now st.lastWalkTime)
  | .play => active || st.isSleeping ||
      decide (st.stats.energy < cfg.actions.play.minEnergy) ||
      (cfg.actions.play.requiresToy && !st.hasToy)
  | .buyToy => active || st.isSleeping || st.hasToy
  | .bath => active || st.isSleeping ||
      decide (st.stats.hygiene ≥ cfg.actions.bath.triggerThreshold)
  | .vet => active || st.isSleeping
  | .grooming => active || st.isSleeping ||
      decide (st.stats.hygiene ≥ cfg.actions.grooming.triggerThreshold)

/-- The cost a click charges, per tile (`handleAction` adds it to the lifetime
spend). -/
def clickCost (k : AKind) (st : DashState) : ℚ :=
  let cfg := petConfigFor st.petType
  match k with
  | .feed => feedCostFor st.petType st.feedCount
  | .water => cfg.actions.water.cost
  | .exercise => cfg.actions.exercise.cost
  | .play => cfg.actions.play.cost
  | .buyToy => 15
  | .bath => cfg.actions.bath.cost
  | .vet => cfg.actions.vetVisit.cost
  | .grooming => cfg.actions.grooming.cost

/-- The duration a click passes to `handleAction`. -/
def clickDuration (k : AKind) (st : DashState) : ℚ :=
  let cfg := petConfigFor st.petType
  match k with
  | .feed => feedDurationFor st.petType st.feedCount
  | .water => cfg.actions.water.duration
  | .exercise => cfg.actions.exercise.duration
  | .play => cfg.actions.play.duration
  | .buyToy => 5 * 60
  | .bath => cfg.actions.bath.duration
  | .vet => cfg.actions.vetVisit.duration
  | .grooming => cfg.actions.grooming.duration

/-- The word used for the exercise of this archetype in event messages. -/
def exerciseWord (t : PetType) : String :=
  match t with
  | .dog => "walk"
  | .cat => "play session"
  | .parrot => "flight"
  | .rabbit => "run"

/-- The label `handleAction` stores in `activeAction` for each tile. -/
def actionLabel (k : AKind) (st : DashState) : String :=
  match k with
  | .feed => if st.petType = .dog ∧ 120 ≤ st.feedCount then "Getting food & Feeding"
      else "Feeding"
  | .water => "Giving Water"
  | .exercise => match st.petType with
      | .dog => "Walking"
      | .cat => "Playing"
      | .parrot => "Flying"
      | .rabbit => "Running"
  | .play => "Playing"
  | .buyToy => "Buying Toy"
  | .bath => match st.petType with
      | .parrot => "Shower"
      | .rabbit => "Spot Clean"
      | _ => "Bath"
  | .vet => "Vet Visit"
  | .grooming => match st.petType with
      | .parrot => "Trimming Beak/Claws"
      | .cat => "Brushing"
      | .rabbit => "Brushing"
      | .dog => "Trimming Nails"

/-- The event some click handlers append before calling `handleAction` (feed
and water append none). -/
def preClickEvent (k : AKind) (st : DashState) : Option String :=
  match k with
  | .feed => none
  | .water => none
  | .exercise => some (st.name ++ " is going on a " ++ exerciseWord st.petType ++ " 🚶")
  | .play => some (st.name ++ " is playing! 🎾")
  | .buyToy => some ("Buying a new toy for " ++ st.name ++ " 🛒")
  | .bath => some (st.name ++ " is getting a " ++ lowerStr (actionLabel .bath st) ++ " 🛁")
  | .vet => some ("Taking " ++ st.name ++ " to the vet 🏥")
  | .grooming => some (actionLabel .grooming st ++ " " ++ st.name ++ " ✂️")

/-- The immediate state updates of `handleAction`: mark the action active,
start its timer, charge the cost, and log a spend event when the cost is
positive. The pending stat deltas and completion side effects live in the
timer closure and are modelled by `statChangesFor` and the completion
lemmas. -/
def handleActionClick (label : String) (cost duration : ℚ) (st : DashState) : DashState :=
  let st := { st with
    activeAction := some label
    actionTimer := duration
    totalSpent := st.totalSpent + cost }
  if 0 < cost then
    { st with events :=
        addEventL ("Spent $" ++ toString cost ++ " on " ++ lowerStr label) st.events }
  else st

/-- The state after the pre-click event (if any) is appended. -/
def preClickState (k : AKind) (st : DashState) : DashState :=
  match preClickEvent k st with
  | some msg => { st with events := addEventL msg st.events }
  | none => st

/-- An attempt at an action: a disabled tile swallows the click (HTML disabled
buttons fire no click handler), an enabled tile appends its pre-click event
and runs `handleAction`. -/
def attempt (k : AKind) (st : DashState) (now : ℚ) : DashState :=
  if disabledFor k st now then st
  else handleActionClick (actionLabel k st) (clickCost k st) (clickDuration k st)
    (preClickState k st)

/-! ## Toy-break penalty scheduling -/

/-- Number of times the delayed toy-break happiness penalty fires for one play
action. Per the code, the one-hour timeout tests `!hasToy` where `hasToy` is
the value captured by the click-handler closure when Play was clicked (state
read at render time), not the live value when the timer fires; the live value
at fire time, which tells whether a replacement toy was bought in the window,
is never consulted. -/
def toyPenaltyApplications (toyBreaks capturedHasToy hasToyAtFire : Bool) : ℕ :=
  if toyBreaks then (if !capturedHasToy then 1 else 0) else 0

/-- The penalty the timeout would apply when it fires: happiness drops by 30,
floored at 0, and a sadness event is appended. -/
def toyPenaltyStats (s : PetStats) : PetStats :=
  { s with happiness := max 0 (s.happiness - 30) }

/-- The stat vector with all five fields at 10, used by the report scenario. -/
def tenStats : PetStats := ⟨10, 10, 10, 10, 10⟩

/-- A saved stat vector whose thirst is exactly zero (fields are hunger,
happiness, hygiene, energy, thirst). -/
def zeroThirstStats : PetStats := ⟨50, 50, 50, 50, 0⟩

/-- Action counters with a single vet visit and nothing else. -/
def vetOnlyCounts : ActionCounts := ⟨0, 0, 0, 0, 0, 1, 0⟩

/-- The completion events of one feed, one water, one play and one bath, as
the dashboard appends them. -/
def scenarioEvents : List String :=
  ["Finished feeding", "Finished giving water", "Finished playing", "Finished bath"]

/-! # Theorems -/

/-- Helper: a score of at least 97 ranks at least 12. -/
theorem rank_ge_of_97 (s : ℚ) (h : (97 : ℚ) ≤ s) : 12 ≤ gradeRank (getGrade s) := by
  simp [getGrade, gradeRank, show s ≥ 97 from h]

/-- Helper: a score of at least 93 ranks at least 11. -/
theorem rank_ge_of_93 (s : ℚ) (h : (93 : ℚ) ≤ s) : 11 ≤ gradeRank (getGrade s) := by
  by_cases h1 : s ≥ 97
  · simp [getGrade, gradeRank, h1]
  · simp [getGrade, gradeRank, h1, show s ≥ 93 from h]

/-- Helper: a score of at least 90 ranks at least 10. -/
theorem rank_ge_of_90 (s : ℚ) (h : (90 : ℚ) ≤ s) : 10 ≤ gradeRank (getGrade s) := by
  by_cases h1 : s ≥ 97
  · simp [getGrade, gradeRank, h1]
  by_cases h2 : s ≥ 93
  · simp [getGrade, gradeRank, h1, h2]
  · simp [getGrade, gradeRank, h1, h2, show s ≥ 90 from h]

/-- Helper: a score of at least 87 ranks at least 9. -/
theorem rank_ge_of_87 (s : ℚ) (h : (87 : ℚ) ≤ s) : 9 ≤ gradeRank (getGrade s) := by
  by_cases h1 : s ≥ 97
  · simp [getGrade, gradeRank, h1]
  by_cases h2 : s ≥ 93
  · simp [getGrade, gradeRank, h1, h2]
  by_cases h3 : s ≥ 90
  · simp [getGrade, gradeRank, h1, h2, h3]
  · simp [getGrade, gradeRank, h1, h2, h3, show s ≥ 87 from h]

/-- Helper: a score of at least 83 ranks at least 8. -/
theorem rank_ge_of_83 (s : ℚ) (h : (83 : ℚ) ≤ s) : 8 ≤ gradeRank (getGrade s) := by
  by_cases h1 : s ≥ 97
  · simp [getGrade, gradeRank, h1]
  by_cases h2 : s ≥ 93
  · simp [getGrade, gradeRank, h1, h2]
  by_cases h3 : s ≥ 90
  · simp [getGrade, gradeRank, h1, h2, h3]
  by_cases h4 : s ≥ 87
  · simp [getGrade, gradeRank, h1, h2, h3, h4]
  · simp [getGrade, gradeRank, h1, h2, h3, h4, show s ≥ 83 from h]

/-- Helper: a score of at least 80 ranks at least 7. -/
theorem rank_ge_of_80 (s : ℚ) (h : (80 : ℚ) ≤ s) : 7 ≤ gradeRank (getGrade s) := by
  by_cases h1 : s ≥ 97
  · simp [getGrade, gradeRank, h1]
  by_cases h2 : s ≥ 93
  · simp [getGrade, gradeRank, h1, h2]
  by_cases h3 : s ≥ 90
  · simp [getGrade, gradeRank, h1, h2, h3]
  by_cases h4 : s ≥ 87
  · simp [getGrade, gradeRank, h1, h2, h3, h4]
  by_cases h5 : s ≥ 83
  · simp [getGrade, gradeRank, h1, h2, h3, h4, h5]
  · simp [getGrade, gradeRank, h1, h2, h3, h4, h5, show s ≥ 80 from h]

/-- Helper: a score of at least 77 ranks at least 6. -/
theorem rank_ge_of_77 (s : ℚ) (h : (77 : ℚ) ≤ s) : 6 ≤ gradeRank (getGrade s) := by
  by_cases h1 : s ≥ 97
  · simp [getGrade, gradeRank, h1]
  by_cases h2 : s ≥ 93
  · simp [getGrade, gradeRank, h1, h2]
  by_cases h3 : s ≥ 90
  · simp [getGrade, gradeRank, h1, h2, h3]
  by_cases h4 : s ≥ 87
  · simp [getGrade, gradeRank, h1, h2, h3, h4]
  by_cases h5 : s ≥ 83
  · simp [getGrade, gradeRank, h1, h2, h3, h4, h5]
  by_cases h6 : s ≥ 80
  · simp [getGrade, gradeRank, h1, h2, h3, h4, h5, h6]
  · simp [getGrade, gradeRank, h1, h2, h3, h4, h5, h6, show s ≥ 77 from h]

/-- Helper: a score of at least 73 ranks at least 5. -/
theorem rank_ge_of_73 (s : ℚ) (h : (73 : ℚ) ≤ s) : 5 ≤ gradeRank (getGrade s) := by
  by_cases h1 : s ≥ 97
  · simp [getGrade, gradeRank, h1]
  by_cases h2 : s ≥ 93
  · simp [getGrade, gradeRank, h1, h2]
  by_cases h3 : s ≥ 90
  · simp [getGrade, gradeRank, h1, h2, h3]
  by_cases h4 : s ≥ 87
  · simp [getGrade, gradeRank, h1, h2, h3, h4]
  by_cases h5 : s ≥ 83
  · simp [getGrade, gradeRank, h1, h2, h3, h4, h5]
  by_cases h6 : s ≥ 80
  · simp [getGrade, gradeRank, h1, h2, h3, h4, h5, h6]
  by_cases h7 : s ≥ 77
  · simp [getGrade, gradeRank, h1, h2, h3, h4, h5, h6, h7]
  · simp [getGrade, gradeRank, h1, h2, h3, h4, h5, h6, h7, show s ≥ 73 from h]

/-- Helper: a score of at least 70 ranks at least 4. -/
theorem rank_ge_of_70 (s : ℚ) (h : (70 : ℚ) ≤ s) : 4 ≤ gradeRank (getGrade s) := by
  by_cases h1 : s ≥ 97
  · simp [getGrade, gradeRank, h1]
  by_cases h2 : s ≥ 93
  · simp [getGrade, gradeRank, h1, h2]
  by_cases h3 : s ≥ 90
  · simp [getGrade, gradeRank, h1, h2, h3]
  by_cases h4 : s ≥ 87
  · simp [getGrade, gradeRank, h1, h2, h3, h4]
  by_cases h5 : s ≥ 83
  · simp [getGrade, gradeRank, h1, h2, h3, h4, h5]
  by_cases h6 : s ≥ 80
  · simp [getGrade, gradeRank, h1, h2, h3, h4, h5, h6]
  by_cases h7 : s ≥ 77
  · simp [getGrade, gradeRank, h1, h2, h3, h4, h5, h6, h7]
  by_cases h8 : s ≥ 73
  · simp [getGrade, gradeRank, h1, h2, h3, h4, h5, h6, h7, h8]
  · simp [getGrade, gradeRank, h1, h2, h3, h4, h5, h6, h7, h8, show s ≥ 70 from h]

/-- Helper: a score of at least 67 ranks at least 3. -/
theorem rank_ge_of_67 (s : ℚ) (h : (67 : ℚ) ≤ s) : 3 ≤ gradeRank (getGrade s) := by
  by_cases h1 : s ≥ 97
  · simp [getGrade, gradeRank, h1]
  by_cases h2 : s ≥ 93
  · simp [getGrade, gradeRank, h1, h2]
  by_cases h3 : s ≥ 90
  · simp [getGrade, gradeRank, h1, h2, h3]
  by_cases h4 : s ≥ 87
  · simp [getGrade, gradeRank, h1, h2, h3, h4]
  by_cases h5 : s ≥ 83
  · simp [getGrade, gradeRank, h1, h2, h3, h4, h5]
  by_cases h6 : s ≥ 80
  · simp [getGrade, gradeRank, h1, h2, h3, h4, h5, h6]
  by_cases h7 : s ≥ 77
  · simp [getGrade, gradeRank, h1, h2, h3, h4, h5, h6, h7]
  by_cases h8 : s ≥ 73
  · simp [getGrade, gradeRank, h1, h2, h3, h4, h5, h6, h7, h8]
  by_cases h9 : s ≥ 70
  · simp [getGrade, gradeRank, h1, h2, h3, h4, h5, h6, h7, h8, h9]
  · simp [getGrade, gradeRank, h1, h2, h3, h4, h5, h6, h7, h8, h9, show s ≥ 67 from h]

/-- Helper: a score of at least 63 ranks at least 2. -/
theorem rank_ge_of_63 (s : ℚ) (h : (63 : ℚ) ≤ s) : 2 ≤ gradeRank (getGrade s) := by
  by_cases h1 : s ≥ 97
  · simp [getGrade, gradeRank, h1]
  by_cases h2 : s ≥ 93
  · simp [getGrade, gradeRank, h1, h2]
  by_cases h3 : s ≥ 90
  · simp [getGrade, gradeRank, h1, h2, h3]
  by_cases h4 : s ≥ 87
  · simp [getGrade, gradeRank, h1, h2, h3, h4]
  by_cases h5 : s ≥ 83
  · simp [getGrade, gradeRank, h1, h2, h3, h4, h5]
  by_cases h6 : s ≥ 80
  · simp [getGrade, gradeRank, h1, h2, h3, h4, h5, h6]
  by_cases h7 : s ≥ 77
  · simp [getGrade, gradeRank, h1, h2, h3, h4, h5, h6, h7]
  by_cases h8 : s ≥ 73
  · simp [getGrade, gradeRank, h1, h2, h3, h4, h5, h6, h7, h8]
  by_cases h9 : s ≥ 70
  · simp [getGrade, gradeRank, h1, h2, h3, h4, h5, h6, h7, h8, h9]
  by_cases h10 : s ≥ 67
  · simp [getGrade, gradeRank, h1, h2, h3, h4, h5, h6, h7, h8, h9, h10]
  · simp [getGrade, gradeRank, h1, h2, h3, h4, h5, h6, h7, h8, h9, h10, show s ≥ 63 from h]

/-- Helper: a score of at least 60 ranks at least 1. -/
theorem rank_ge_of_60 (s : ℚ) (h : (60 : ℚ) ≤ s) : 1 ≤ gradeRank (getGrade s) := by
  by_cases h1 : s ≥ 97
  · simp [getGrade, gradeRank, h1]
  by_cases h2 : s ≥ 93
  · simp [getGrade, gradeRank, h1, h2]
  by_cases h3 : s ≥ 90
  · simp [getGrade, gradeRank, h1, h2, h3]
  by_cases h4 : s ≥ 87
  · simp [getGrade, gradeRank, h1, h2, h3, h4]
  by_cases h5 : s ≥ 83
  · simp [getGrade, gradeRank, h1, h2, h3, h4, h5]
  by_cases h6 : s ≥ 80
  · simp [getGrade, gradeRank, h1, h2, h3, h4, h5, h6]
  by_cases h7 : s ≥ 77
  · simp [getGrade, gradeRank, h1, h2, h3, h4, h5, h6, h7]
  by_cases h8 : s ≥ 73
  · simp [getGrade, gradeRank, h1, h2, h3, h4, h5, h6, h7, h8]
  by_cases h9 : s ≥ 70
  · simp [getGrade, gradeRank, h1, h2, h3, h4, h5, h6, h7, h8, h9]
  by_cases h10 : s ≥ 67
  · simp [getGrade, gradeRank, h1, h2, h3, h4, h5, h6, h7, h8, h9, h10]
  by_cases h11 : s ≥ 63
  · simp [getGrade, gradeRank, h1, h2, h3, h4, h5, h6, h7, h8, h9, h10, h11]
  · simp [getGrade, gradeRank, h1, h2, h3, h4, h5, h6, h7, h8, h9, h10, h11,
      show s ≥ 60 from h]

/-- C5: the letter-grade mapping follows the fixed threshold table, and the
grade is monotonically non-decreasing in the score; in particular 96 maps to
A, 97 to A+, and 59 to F. -/
theorem grade_table_and_monotone :
    (∀ s1 s2 : ℚ, s1 ≤ s2 → gradeRank (getGrade s1) ≤ gradeRank (getGrade s2)) ∧
    getGrade 96 = "A" ∧ getGrade 97 = "A+" ∧ getGrade 59 = "F" ∧
    (∀ s : ℚ,
      (97 ≤ s → getGrade s = "A+") ∧
      (93 ≤ s ∧ s < 97 → getGrade s = "A") ∧
      (90 ≤ s ∧ s < 93 → getGrade s = "A-") ∧
      (87 ≤ s ∧ s < 90 → getGrade s = "B+") ∧
      (83 ≤ s ∧ s < 87 → getGrade s = "B") ∧
      (80 ≤ s ∧ s < 83 → getGrade s = "B-") ∧
      (77 ≤ s ∧ s < 80 → getGrade s = "C+") ∧
      (73 ≤ s ∧ s < 77 → getGrade s = "C") ∧
      (70 ≤ s ∧ s < 73 → getGrade s = "C-") ∧
      (67 ≤ s ∧ s < 70 → getGrade s = "D+") ∧
      (63 ≤ s ∧ s < 67 → getGrade s = "D") ∧
      (60 ≤ s ∧ s < 63 → getGrade s = "D-") ∧
      (s < 60 → getGrade s = "F")) := by
  refine ⟨?_, by norm_num [getGrade], by norm_num [getGrade], by norm_num [getGrade], ?_⟩
  · intro s1 s2 h12
    by_cases h1 : s1 ≥ 97
    · have e : gradeRank (getGrade s1) = 12 := by simp [getGrade, gradeRank, h1]
      rw [e]; exact rank_ge_of_97 s2 (by linarith)
    by_cases h2 : s1 ≥ 93
    · have e : gradeRank (getGrade s1) = 11 := by simp [getGrade, gradeRank, h1, h2]
      rw [e]; exact rank_ge_of_93 s2 (by linarith)
    by_cases h3 : s1 ≥ 90
    · have e : gradeRank (getGrade s1) = 10 := by simp [getGrade, gradeRank, h1, h2, h3]
      rw [e]; exact rank_ge_of_90 s2 (by linarith)
    by_cases h4 : s1 ≥ 87
    · have e : gradeRank (getGrade s1) = 9 := by
        simp [getGrade, gradeRank, h1, h2, h3, h4]
      rw [e]; exact rank_ge_of_87 s2 (by linarith)
    by_cases h5 : s1 ≥ 83
    · have e : gradeRank (getGrade s1) = 8 := by
        simp [getGrade, gradeRank, h1, h2, h3, h4, h5]
      rw [e]; exact rank_ge_of_83 s2 (by linarith)
    by_cases h6 : s1 ≥ 80
    · have e : gradeRank (getGrade s1) = 7 := by
        simp [getGrade, gradeRank, h1, h2, h3, h4, h5, h6]
      rw [e]; exact rank_ge_of_80 s2 (by linarith)
    by_cases h7 : s1 ≥ 77
    · have e : gradeRank (getGrade s1) = 6 := by
        simp [getGrade, gradeRank, h1, h2, h3, h4, h5, h6, h7]
      rw [e]; exact rank_ge_of_77 s2 (by linarith)
    by_cases h8 : s1 ≥ 73
    · have e : gradeRank (getGrade s1) = 5 := by
        simp [getGrade, gradeRank, h1, h2, h3, h4, h5, h6, h7, h8]
      rw [e]; exact rank_ge_of_73 s2 (by linarith)
    by_cases h9 : s1 ≥ 70
    · have e : gradeRank (getGrade s1) = 4 := by
        simp [getGrade, gradeRank, h1, h2, h3, h4, h5, h6, h7, h8, h9]
      rw [e]; exact rank_ge_of_70 s2 (by linarith)
    by_cases h10 : s1 ≥ 67
    · have e : gradeRank (getGrade s1) = 3 := by
        simp [getGrade, gradeRank, h1, h2, h3, h4, h5, h6, h7, h8, h9, h10]
      rw [e]; exact rank_ge_of_67 s2 (by linarith)
    by_cases h11 : s1 ≥ 63
    · have e : gradeRank (getGrade s1) = 2 := by
        simp [getGrade, gradeRank, h1, h2, h3, h4, h5, h6, h7, h8, h9, h10, h11]
      rw [e]; exact rank_ge_of_63 s2 (by linarith)
    by_cases h12b : s1 ≥ 60
    · have e : gradeRank (getGrade s1) = 1 := by
        simp [getGrade, gradeRank, h1, h2, h3, h4, h5, h6, h7, h8, h9, h10, h11, h12b]
      rw [e]; exact rank_ge_of_60 s2 (by linarith)
    · have e : gradeRank (getGrade s1) = 0 := by
        simp [getGrade, gradeRank, h1, h2, h3, h4, h5, h6, h7, h8, h9, h10, h11, h12b]
      rw [e]; exact Nat.zero_le _
  · intro s
    refine ⟨?_, ?_, ?_, ?_, ?_, ?_, ?_, ?_, ?_, ?_, ?_, ?_, ?_⟩
    · intro hs
      simp [getGrade, show s ≥ 97 from hs]
    · rintro ⟨hlo, hhi⟩
      simp [getGrade, show ¬(s ≥ 97) by linarith, show s ≥ 93 from hlo]
    · rintro ⟨hlo, hhi⟩
      simp [getGrade, show ¬(s ≥ 97) by linarith, show ¬(s ≥ 93) by linarith,
        show s ≥ 90 from hlo]
    · rintro ⟨hlo, hhi⟩
      simp [getGrade, show ¬(s ≥ 97) by linarith, show ¬(s ≥ 93) by linarith,
        show ¬(s ≥ 90) by linarith, show s ≥ 87 from hlo]
    · rintro ⟨hlo, hhi⟩
      simp [getGrade, show ¬(s ≥ 97) by linarith, show ¬(s ≥ 93) by linarith,
        show ¬(s ≥ 90) by linarith, show ¬(s ≥ 87) by linarith, show s ≥ 83 from hlo]
    · rintro ⟨hlo, hhi⟩
      simp [getGrade, show ¬(s ≥ 97) by linarith, show ¬(s ≥ 93) by linarith,
        show ¬(s ≥ 90) by linarith, show ¬(s ≥ 87) by linarith,
        show ¬(s ≥ 83) by linarith, show s ≥ 80 from hlo]
    · rintro ⟨hlo, hhi⟩
      simp [getGrade, show ¬(s ≥ 97) by linarith, show ¬(s ≥ 93) by linarith,
        show ¬(s ≥ 90) by linarith, show ¬(s ≥ 87) by linarith,
        show ¬(s ≥ 83) by linarith, show ¬(s ≥ 80) by linarith, show s ≥ 77 from hlo]
    · rintro ⟨hlo, hhi⟩
      simp [getGrade, show ¬(s ≥ 97) by linarith, show ¬(s ≥ 93) by linarith,
        show ¬(s ≥ 90) by linarith, show ¬(s ≥ 87) by linarith,
        show ¬(s ≥ 83) by linarith, show ¬(s ≥ 80) by linarith,
        show ¬(s ≥ 77) by linarith, show s ≥ 73 from hlo]
    · rintro ⟨hlo, hhi⟩
      simp [getGrade, show ¬(s ≥ 97) by linarith, show ¬(s ≥ 93) by linarith,
        show ¬(s ≥ 90) by linarith, show ¬(s ≥ 87) by linarith,
        show ¬(s ≥ 83) by linarith, show ¬(s ≥ 80) by linarith,
        show ¬(s ≥ 77) by linarith, show ¬(s ≥ 73) by linarith, show s ≥ 70 from hlo]
    · rintro ⟨hlo, hhi⟩
      simp [getGrade, show ¬(s ≥ 97) by linarith, show ¬(s ≥ 93) by linarith,
        show ¬(s ≥ 90) by linarith, show ¬(s ≥ 87) by linarith,
        show ¬(s ≥ 83) by linarith, show ¬(s ≥ 80) by linarith,
        show ¬(s ≥ 77) by linarith, show ¬(s ≥ 73) by linarith,
        show ¬(s ≥ 70) by linarith, show s ≥ 67 from hlo]
    · rintro ⟨hlo, hhi⟩
      simp [getGrade, show ¬(s ≥ 97) by linarith, show ¬(s ≥ 93) by linarith,
        show ¬(s ≥ 90) by linarith, show ¬(s ≥ 87) by linarith,
        show ¬(s ≥ 83) by linarith, show ¬(s ≥ 80) by linarith,
        show ¬(s ≥ 77) by linarith, show ¬(s ≥ 73) by linarith,
        show ¬(s ≥ 70) by linarith, show ¬(s ≥ 67) by linarith, show s ≥ 63 from hlo]
    · rintro ⟨hlo, hhi⟩
      simp [getGrade, show ¬(s ≥ 97) by linarith, show ¬(s ≥ 93) by linarith,
        show ¬(s ≥ 90) by linarith, show ¬(s ≥ 87) by linarith,
        show ¬(s ≥ 83) by linarith, show ¬(s ≥ 80) by linarith,
        show ¬(s ≥ 77) by linarith, show ¬(s ≥ 73) by linarith,
        show ¬(s ≥ 70) by linarith, show ¬(s ≥ 67) by linarith,
        show ¬(s ≥ 63) by linarith, show s ≥ 60 from hlo]
    · intro hhi
      simp [getGrade, show ¬(s ≥ 97) by linarith, show ¬(s ≥ 93) by linarith,
        show ¬(s ≥ 90) by linarith, show ¬(s ≥ 87) by linarith,
        show ¬(s ≥ 83) by linarith, show ¬(s ≥ 80) by linarith,
        show ¬(s ≥ 77) by linarith, show ¬(s ≥ 73) by linarith,
        show ¬(s ≥ 70) by linarith, show ¬(s ≥ 67) by linarith,
        show ¬(s ≥ 63) by linarith, show ¬(s ≥ 60) by linarith]

/-- C5 witness: the monotonicity and table statements applied at 59 and 97. -/
theorem grade_table_and_monotone_witness :
    gradeRank (getGrade (59 : ℚ)) ≤ gradeRank (getGrade (97 : ℚ)) ∧
      getGrade (97 : ℚ) = "A+" ∧ getGrade (59 : ℚ) = "F" := by
  refine ⟨grade_table_and_monotone.1 59 97 (by norm_num), ?_, ?_⟩
  · exact (grade_table_and_monotone.2.2.2.2 97).1 (by norm_num)
  · exact ((grade_table_and_monotone.2.2.2.2 59).2.2.2.2.2.2.2.2.2.2.2.2) (by norm_num)

/-- C6: for a dog, feeding is free with the 5-second base duration for the
first 120 lifetime feeds, and from the 121st attempt on (feedCount at least
120) it costs the flat 25 surcharge with the 60-second restock extension on
top of the base duration. -/
theorem dog_feed_surcharge (n : ℕ) :
    (n < 120 → feedCostFor .dog n = 0 ∧ feedDurationFor .dog n = 5) ∧
    (120 ≤ n → feedCostFor .dog n = 25 ∧
      feedDurationFor .dog n = dogConfig.actions.feed.duration + 60) := by
  unfold feedCostFor feedDurationFor
  constructor
  · intro hn
    have h : ¬ (120 ≤ n) := by omega
    simp [h, petConfigFor, dogConfig]
  · intro hn
    simp [hn, petConfigFor, dogConfig]

/-- C6 witness: the surcharge statement applied at feed counts 119 and 120. -/
theorem dog_feed_surcharge_witness :
    (feedCostFor .dog 119 = 0 ∧ feedDurationFor .dog 119 = 5) ∧
      (feedCostFor .dog 120 = 25 ∧
        feedDurationFor .dog 120 = dogConfig.actions.feed.duration + 60) :=
  ⟨(dog_feed_surcharge 119).1 (by norm_num), (dog_feed_surcharge 120).2 (by norm_num)⟩

/-- C7: in the asleep decay branch, happiness decays at 30% of its normal
awake base rate, hygiene at 25% of the profile rate, and energy regenerates
by a fixed 0.8 per tick capped at 100. -/
theorem asleep_branch_rates (cfg : PetConfig) (s : PetStats)
    (hhap : 0 < cfg.decayRates.happiness) (hhyg : 0 < cfg.decayRates.hygiene) :
    (decayTickAsleep cfg s).happiness =
        max 0 (s.happiness - 0.3 * (0.5 / cfg.decayRates.happiness)) ∧
      (decayTickAsleep cfg s).hygiene =
        max 0 (s.hygiene - 0.25 * (0.5 / cfg.decayRates.hygiene)) ∧
      (decayTickAsleep cfg s).energy = min 100 (s.energy + 0.8) := by
  unfold decayTickAsleep
  refine ⟨?_, ?_, rfl⟩ <;>
    · congr 1
      field_simp
      ring

/-- C7 witness: the asleep-rate statement applied to the dog profile at its
initial stats. -/
theorem asleep_branch_rates_witness :
    (decayTickAsleep dogConfig dogConfig.initialStats).happiness =
        max 0 (dogConfig.initialStats.happiness - 0.3 * (0.5 / dogConfig.decayRates.happiness)) ∧
      (decayTickAsleep dogConfig dogConfig.initialStats).hygiene =
        max 0 (dogConfig.initialStats.hygiene - 0.25 * (0.5 / dogConfig.decayRates.hygiene)) ∧
      (decayTickAsleep dogConfig dogConfig.initialStats).energy =
        min 100 (dogConfig.initialStats.energy + 0.8) :=
  asleep_branch_rates dogConfig dogConfig.initialStats
    (by norm_num [dogConfig]) (by norm_num [dogConfig])

/-- C8: the sleep-cycle predicate reports asleep exactly when the hour of day
falls in the profile window, midnight-crossing windows handled by the
start-greater-than-end case. -/
theorem sleep_window_formula (cfg : PetConfig) (h : ℕ) :
    shouldBeSleeping cfg h = true ↔
      ((cfg.sleepHours.start > cfg.sleepHours.endH →
          (h ≥ cfg.sleepHours.start ∨ h < cfg.sleepHours.endH)) ∧
        (cfg.sleepHours.start ≤ cfg.sleepHours.endH →
          (h ≥ cfg.sleepHours.start ∧ h < cfg.sleepHours.endH))) := by
  unfold shouldBeSleeping
  by_cases hgt : cfg.sleepHours.start > cfg.sleepHours.endH <;>
    simp [hgt] <;> omega

/-- Helper: the length of the positives filter over six counters equals the
sum of the corresponding indicators. -/
theorem filter_len_six (a b d e f g : ℕ) :
    ([a, b, d, e, f, g].filter (fun x => decide (0 < x))).length =
      (if 0 < a then 1 else 0) + (if 0 < b then 1 else 0) + (if 0 < d then 1 else 0) +
        (if 0 < e then 1 else 0) + (if 0 < f then 1 else 0) + (if 0 < g then 1 else 0) := by
  by_cases ha : 0 < a <;> by_cases hb : 0 < b <;> by_cases hd : 0 < d <;>
    by_cases he : 0 < e <;> by_cases hf : 0 < f <;> by_cases hg : 0 < g <;>
      simp [ha, hb, hd, he, hf, hg, List.filter]

/-- C4 counterexample: the overall score does not count the vet kind in the
variety bonus. With all stats at 10 and exactly one vet visit counted, the
claim formula (all derived action kinds) gives 12 while the code gives 10. -/
theorem overall_score_claim_false :
    getOverallScore tenStats vetOnlyCounts ≠ claimOverallScore tenStats vetOnlyCounts ∧
      getOverallScore tenStats vetOnlyCounts = 10 ∧
      claimOverallScore tenStats vetOnlyCounts = 12 := by
  have h1 : getOverallScore tenStats vetOnlyCounts = 10 := by
    simp only [getOverallScore, tenStats, vetOnlyCounts]
    norm_num [jsRound, List.filter]
  have h2 : claimOverallScore tenStats vetOnlyCounts = 12 := by
    simp only [claimOverallScore, tenStats, vetOnlyCounts]
    norm_num [jsRound, List.filter]
  exact ⟨by rw [h1, h2]; norm_num, h1, h2⟩

/-- C4 as amended: the overall score is the rounded value of the average of
the five live stats plus min(10, 2 times the number of distinct non-vet
action kinds with positive count), capped at 100; in the scenario with all
stats 10 and one feed, water, play and bath event each, the counts are as
expected, the score is 18 and the grade is F. -/
theorem overall_score_formula :
    (∀ (stats : PetStats) (c : ActionCounts),
      getOverallScore stats c = amendedOverallScore stats c) ∧
      getActionCounts scenarioEvents = ⟨1, 1, 0, 1, 1, 0, 0⟩ ∧
      getOverallScore tenStats (getActionCounts scenarioEvents) = 18 ∧
      getGrade 18 = "F" := by
  have hc : getActionCounts scenarioEvents = ⟨1, 1, 0, 1, 1, 0, 0⟩ := by decide
  refine ⟨?_, hc, ?_, by norm_num [getGrade]⟩
  · intro stats c
    simp only [getOverallScore, amendedOverallScore, varietyAmended]
    rw [filter_len_six]
  · rw [hc]
    simp only [getOverallScore, tenStats]
    norm_num [jsRound, List.filter]

/-- C4 witness: the amended formula applied at the scenario stats and
counts. -/
theorem overall_score_formula_witness :
    getOverallScore tenStats vetOnlyCounts = amendedOverallScore tenStats vetOnlyCounts :=
  overall_score_formula.1 tenStats vetOnlyCounts

/-- Helper: one application of `calculateDecay` stays at or below a
nonnegative input and at or above zero, for nonnegative rate and hours. -/
theorem calculateDecay_bounds (h : ℕ) (x r t : ℚ) (hx : 0 ≤ x) (hr : 0 ≤ r) (ht : 0 ≤ t) :
    0 ≤ calculateDecay h x r t ∧ calculateDecay h x r t ≤ x := by
  have h1 : 0 ≤ r * 0.2 * t := by positivity
  have h2 : 0 ≤ r * t := by positivity
  simp only [calculateDecay]
  split_ifs <;> exact ⟨le_max_left 0 _, max_le hx (by linarith)⟩

/-- C2 counterexample: iterating the awake decay tick over an elapsed
duration does not reproduce the offline catch-up over the same duration. For
the dog profile, daytime, one 30-second tick starting from the initial stats,
already the hunger fields differ (tick rate 0.5/6.75 versus catch-up rate 1
per hour). -/
theorem decay_catchup_claim_false :
    ¬ (∀ (cfg : PetConfig) (day : Bool) (msr : ℚ) (hour : ℕ) (n : ℕ) (s : PetStats),
        (decayTickAwake cfg day msr)^[n] s = catchUpStats hour ((n : ℚ) * 0.5 / 60) s) := by
  intro hAll
  have h := congrArg PetStats.hunger
    (hAll dogConfig true 0 12 1 dogConfig.initialStats)
  rw [Function.iterate_one] at h
  norm_num [decayTickAwake, catchUpStats, calculateDecay, dogConfig, max_def] at h

/-- C2 as amended: each engine is a deterministic function of its inputs, but
the catch-up engine uses fixed per-hour rates independent of the profile decay
rates, so the two engines disagree: for the dog profile, awake at daytime hour
12, over one 30-second tick the resulting stat vectors differ on hunger. -/
theorem decay_catchup_engines_differ :
    (decayTickAwake dogConfig true 0 dogConfig.initialStats).hunger ≠
      (catchUpStats 12 (0.5 / 60) dogConfig.initialStats).hunger := by
  norm_num [decayTickAwake, catchUpStats, calculateDecay, dogConfig, max_def]

/-- C10 counterexample: the catch-up computation can increase a stat. A saved
vector with every field in [0,100] and thirst exactly 0 is rebuilt with
thirst 80 by the falsy-fallback, so with zero elapsed hours the resulting
thirst 80 strictly exceeds the saved thirst 0. -/
theorem catchup_can_increase_thirst :
    StatsInRange zeroThirstStats ∧
      zeroThirstStats.thirst < (catchUpStats 12 0 zeroThirstStats).thirst := by
  constructor
  · norm_num [StatsInRange, InRange01, zeroThirstStats]
  · norm_num [zeroThirstStats, catchUpStats, calculateDecay, max_def]

/-- C10 as amended: over a nonnegative elapsed duration the catch-up keeps
every stat at or above zero, never increases hunger, happiness, hygiene or
energy, and never increases thirst either unless the saved thirst is exactly
zero, in which case the falsy fallback restarts it from 80 (and the result is
then at most 80). -/
theorem catchup_never_increases (hr : ℕ) (hours : ℚ) (saved : PetStats)
    (hh : 0 ≤ hours) (hs : StatsInRange saved) :
    (0 ≤ (catchUpStats hr hours saved).hunger ∧
        (catchUpStats hr hours saved).hunger ≤ saved.hunger) ∧
      (0 ≤ (catchUpStats hr hours saved).happiness ∧
        (catchUpStats hr hours saved).happiness ≤ saved.happiness) ∧
      (0 ≤ (catchUpStats hr hours saved).hygiene ∧
        (catchUpStats hr hours saved).hygiene ≤ saved.hygiene) ∧
      (0 ≤ (catchUpStats hr hours saved).energy ∧
        (catchUpStats hr hours saved).energy ≤ saved.energy) ∧
      (0 ≤ (catchUpStats hr hours saved).thirst ∧
        (saved.thirst ≠ 0 → (catchUpStats hr hours saved).thirst ≤ saved.thirst) ∧
        (saved.thirst = 0 → (catchUpStats hr hours saved).thirst ≤ 80)) := by
  obtain ⟨⟨hu0, hu1⟩, ⟨hp0, hp1⟩, ⟨hy0, hy1⟩, ⟨he0, he1⟩, ⟨ht0, ht1⟩⟩ := hs
  refine ⟨?_, ?_, ?_, ?_, ?_⟩
  · exact calculateDecay_bounds hr saved.hunger 1 hours hu0 (by norm_num) hh
  · exact calculateDecay_bounds hr saved.happiness 0.5 hours hp0 (by norm_num) hh
  · exact calculateDecay_bounds hr saved.hygiene 0.3 hours hy0 (by norm_num) hh
  · exact calculateDecay_bounds hr saved.energy 0.4 hours he0 (by norm_num) hh
  · by_cases hz : saved.thirst = 0
    · have hb := calculateDecay_bounds hr (80 : ℚ) 2 hours (by norm_num) (by norm_num) hh
      refine ⟨?_, fun hne => absurd hz hne, fun _ => ?_⟩
      · simpa [catchUpStats, hz] using hb.1
      · simpa [catchUpStats, hz] using hb.2
    · have hb := calculateDecay_bounds hr saved.thirst 2 hours ht0 (by norm_num) hh
      refine ⟨?_, fun _ => ?_, fun hzz => absurd hzz hz⟩
      · simpa [catchUpStats, hz] using hb.1
      · simpa [catchUpStats, hz] using hb.2

/-- C10 witness: the amended statement applied to the dog initial stats over
two elapsed hours at hour 12. -/
theorem catchup_never_increases_witness :
    0 ≤ (catchUpStats 12 2 dogConfig.initialStats).hunger ∧
      (catchUpStats 12 2 dogConfig.initialStats).hunger ≤ dogConfig.initialStats.hunger ∧
      ((dogConfig.initialStats.thirst ≠ 0 →
        (catchUpStats 12 2 dogConfig.initialStats).thirst ≤ dogConfig.initialStats.thirst)) := by
  have h := catchup_never_increases 12 2 dogConfig.initialStats (by norm_num)
    (by norm_num [StatsInRange, InRange01, dogConfig])
  exact ⟨h.1.1, h.1.2, h.2.2.2.2.2.1⟩

/-- Helper: the awake decay tick keeps all stats in [0,100]. -/
theorem decayTickAwake_inRange (cfg : PetConfig) (day : Bool) (msr : ℚ) (s : PetStats)
    (hr : RatesNonneg cfg) (hs : StatsInRange s) :
    StatsInRange (decayTickAwake cfg day msr s) := by
  obtain ⟨hr1, hr2, hr3, hr4, hr5⟩ := hr
  obtain ⟨⟨hsu0, hsu1⟩, ⟨hsp0, hsp1⟩, ⟨hsy0, hsy1⟩, ⟨hse0, hse1⟩, ⟨hst0, hst1⟩⟩ := hs
  have hm1 : (0 : ℚ) ≤ if s.hunger < 25 then 1.5 else 1 := by split <;> norm_num
  have hm2 : (0 : ℚ) ≤ if s.hygiene < 40 then 1.5 else 1 := by split <;> norm_num
  have hd1 : (0 : ℚ) ≤ (1 / cfg.decayRates.hunger) * 0.5 :=
    mul_nonneg (one_div_nonneg.mpr hr1) (by norm_num)
  have hd2 : (0 : ℚ) ≤ (1 / cfg.decayRates.happiness) * 0.5 *
      (if s.hunger < 25 then 1.5 else 1) * (if s.hygiene < 40 then 1.5 else 1) :=
    mul_nonneg (mul_nonneg (mul_nonneg (one_div_nonneg.mpr hr2) (by norm_num)) hm1) hm2
  have hd3 : (0 : ℚ) ≤ (1 / (cfg.decayRates.hygiene * 2)) * 0.5 :=
    mul_nonneg (one_div_nonneg.mpr (by linarith)) (by norm_num)
  have hd5 : (0 : ℚ) ≤ (1 / cfg.decayRates.thirst) * 0.5 :=
    mul_nonneg (one_div_nonneg.mpr hr5) (by norm_num)
  simp only [decayTickAwake]
  refine ⟨⟨?_, ?_⟩, ⟨?_, ?_⟩, ⟨?_, ?_⟩, ⟨?_, ?_⟩, ⟨?_, ?_⟩⟩
  · exact le_max_left 0 _
  · exact max_le (by norm_num) (by linarith)
  · exact le_max_left 0 _
  · exact max_le (by norm_num) (by linarith)
  · exact le_max_left 0 _
  · exact max_le (by norm_num) (by linarith)
  · exact le_min (by norm_num) (le_max_left 0 _)
  · exact min_le_left 100 _
  · exact le_max_left 0 _
  · exact max_le (by norm_num) (by linarith)

/-- Helper: the asleep decay tick keeps all stats in [0,100] for a profile
whose sleep window lasts at least one hour. -/
theorem decayTickAsleep_inRange (cfg : PetConfig) (s : PetStats)
    (hr : RatesNonneg cfg) (hsd : 1 ≤ sleepDurationHours cfg) (hs : StatsInRange s) :
    StatsInRange (decayTickAsleep cfg s) := by
  obtain ⟨hr1, hr2, hr3, hr4, hr5⟩ := hr
  obtain ⟨⟨hsu0, hsu1⟩, ⟨hsp0, hsp1⟩, ⟨hsy0, hsy1⟩, ⟨hse0, hse1⟩, ⟨hst0, hst1⟩⟩ := hs
  have htsm : (60 : ℚ) ≤ sleepDurationHours cfg * 60 := by linarith
  have hd2 : (0 : ℚ) ≤ (1 / cfg.decayRates.happiness) * 0.5 * 0.3 :=
    mul_nonneg (mul_nonneg (one_div_nonneg.mpr hr2) (by norm_num)) (by norm_num)
  have hd3 : (0 : ℚ) ≤ (1 / (cfg.decayRates.hygiene * 2)) * 0.5 * 0.5 :=
    mul_nonneg (mul_nonneg (one_div_nonneg.mpr (by linarith)) (by norm_num)) (by norm_num)
  have hdu : (0 : ℚ) ≤ max 0 ((s.hunger - 20) / (sleepDurationHours cfg * 60)) * 0.5 :=
    mul_nonneg (le_max_left 0 _) (by norm_num)
  simp only [decayTickAsleep]
  refine ⟨⟨?_, ?_⟩, ⟨?_, ?_⟩, ⟨?_, ?_⟩, ⟨?_, ?_⟩, ⟨?_, ?_⟩⟩
  · exact le_trans (by norm_num) (le_max_left 20 _)
  · exact max_le (by norm_num) (by linarith)
  · exact le_max_left 0 _
  · exact max_le (by norm_num) (by linarith)
  · exact le_max_left 0 _
  · exact max_le (by norm_num) (by linarith)
  · exact le_min (by norm_num) (by linarith)
  · exact min_le_left 100 _
  · exact le_trans (by norm_num) (le_max_left 15 _)
  · refine max_le (by norm_num) ?_
    rcases le_or_lt 15 s.thirst with hge | hlt
    · have hq : (0 : ℚ) ≤ (s.thirst - 15) / (sleepDurationHours cfg * 60) :=
        div_nonneg (by linarith) (by linarith)
      linarith
    · have h2 : (15 - s.thirst) / (sleepDurationHours cfg * 60) ≤ 15 - s.thirst :=
        div_le_self (by linarith) (by linarith)
      have h3 : (15 - s.thirst) / (sleepDurationHours cfg * 60) =
          -((s.thirst - 15) / (sleepDurationHours cfg * 60)) := by ring
      linarith

/-- Helper: completing a feed keeps all stats in [0,100]. -/
theorem applyFeed_inRange (f : FeedCfg) (click s : PetStats)
    (hd1 : 0 ≤ f.sHunger) (hd2 : 0 ≤ f.sHappiness.getD 0) (hd3 : 0 ≤ f.sEnergy.getD 0)
    (hc : StatsInRange click) (hs : StatsInRange s) :
    StatsInRange (applyStatChanges s (feedStatChanges f click)) := by
  obtain ⟨⟨hcu0, hcu1⟩, ⟨hcp0, hcp1⟩, ⟨hcy0, hcy1⟩, ⟨hce0, hce1⟩, ⟨hct0, hct1⟩⟩ := hc
  obtain ⟨⟨hsu0, hsu1⟩, ⟨hsp0, hsp1⟩, ⟨hsy0, hsy1⟩, ⟨hse0, hse1⟩, ⟨hst0, hst1⟩⟩ := hs
  simp only [feedStatChanges, applyStatChanges]
  split_ifs <;>
    refine ⟨⟨?_, ?_⟩, ⟨?_, ?_⟩, ⟨?_, ?_⟩, ⟨?_, ?_⟩, ⟨?_, ?_⟩⟩ <;>
      simp only [Option.getD_some, Option.getD_none] <;>
        first
          | linarith
          | (norm_num [le_max_iff, max_le_iff, le_min_iff, min_le_iff] <;> linarith)

/-- Helper: completing a water keeps all stats in [0,100]. -/
theorem applyWater_inRange (w : WaterCfg) (click s : PetStats)
    (hd1 : 0 ≤ w.sThirst) (hd2 : 0 ≤ w.sHappiness.getD 0)
    (hc : StatsInRange click) (hs : StatsInRange s) :
    StatsInRange (applyStatChanges s (waterStatChanges w click)) := by
  obtain ⟨⟨hcu0, hcu1⟩, ⟨hcp0, hcp1⟩, ⟨hcy0, hcy1⟩, ⟨hce0, hce1⟩, ⟨hct0, hct1⟩⟩ := hc
  obtain ⟨⟨hsu0, hsu1⟩, ⟨hsp0, hsp1⟩, ⟨hsy0, hsy1⟩, ⟨hse0, hse1⟩, ⟨hst0, hst1⟩⟩ := hs
  simp only [waterStatChanges, applyStatChanges]
  split_ifs <;>
    refine ⟨⟨?_, ?_⟩, ⟨?_, ?_⟩, ⟨?_, ?_⟩, ⟨?_, ?_⟩, ⟨?_, ?_⟩⟩ <;>
      simp only [Option.getD_some, Option.getD_none] <;>
        first
          | linarith
          | (norm_num [le_max_iff, max_le_iff, le_min_iff, min_le_iff] <;> linarith)

/-- Helper: completing an exercise keeps all stats in [0,100]. -/
theorem applyExercise_inRange (e : ExerciseCfg) (click s : PetStats)
    (hd1 : 0 ≤ e.sHappiness) (hc : StatsInRange click) (hs : StatsInRange s) :
    StatsInRange (applyStatChanges s (exerciseStatChanges e click)) := by
  obtain ⟨⟨hcu0, hcu1⟩, ⟨hcp0, hcp1⟩, ⟨hcy0, hcy1⟩, ⟨hce0, hce1⟩, ⟨hct0, hct1⟩⟩ := hc
  obtain ⟨⟨hsu0, hsu1⟩, ⟨hsp0, hsp1⟩, ⟨hsy0, hsy1⟩, ⟨hse0, hse1⟩, ⟨hst0, hst1⟩⟩ := hs
  have ha1 : (0 : ℚ) ≤ |e.sEnergy| := abs_nonneg _
  have ha2 : (0 : ℚ) ≤ (if optTruthy e.sHygiene then |e.sHygiene.getD 0| else 0) := by
    split
    · exact abs_nonneg _
    · exact le_refl 0
  have ha3 : (0 : ℚ) ≤ (if e.sThirst = 0 then (0 : ℚ) else |e.sThirst|) := by
    split
    · exact le_refl 0
    · exact abs_nonneg _
  have ha4 : (0 : ℚ) ≤ (if e.sHunger = 0 then (0 : ℚ) else |e.sHunger|) := by
    split
    · exact le_refl 0
    · exact abs_nonneg _
  simp only [exerciseStatChanges, applyStatChanges]
  by_cases h1 : (0 : ℚ) < (if optTruthy e.sHygiene then |e.sHygiene.getD 0| else 0) <;>
    by_cases h2 : (0 : ℚ) < (if e.sThirst = 0 then (0 : ℚ) else |e.sThirst|) <;>
      by_cases h3 : (0 : ℚ) < (if e.sHunger = 0 then (0 : ℚ) else |e.sHunger|) <;>
        simp only [h1, h2, h3, if_true, if_false, ite_true, ite_false] <;>
          refine ⟨⟨?_, ?_⟩, ⟨?_, ?_⟩, ⟨?_, ?_⟩, ⟨?_, ?_⟩, ⟨?_, ?_⟩⟩ <;>
            simp only [Option.getD_some, Option.getD_none] <;>
              first
                | linarith
                | (norm_num [le_max_iff, max_le_iff, le_min_iff, min_le_iff] <;> linarith)

/-- Helper: completing a play keeps all stats in [0,100]. -/
theorem applyPlay_inRange (p : PlayCfg) (click s : PetStats)
    (hd1 : 0 ≤ p.sHappiness) (hc : StatsInRange click) (hs : StatsInRange s) :
    StatsInRange (applyStatChanges s (playStatChanges p click)) := by
  obtain ⟨⟨hcu0, hcu1⟩, ⟨hcp0, hcp1⟩, ⟨hcy0, hcy1⟩, ⟨hce0, hce1⟩, ⟨hct0, hct1⟩⟩ := hc
  obtain ⟨⟨hsu0, hsu1⟩, ⟨hsp0, hsp1⟩, ⟨hsy0, hsy1⟩, ⟨hse0, hse1⟩, ⟨hst0, hst1⟩⟩ := hs
  have ha1 : (0 : ℚ) ≤ |p.sEnergy| := abs_nonneg _
  have ha2 : (0 : ℚ) ≤ (if optTruthy p.sHygiene then |p.sHygiene.getD 0| else 0) := by
    split
    · exact abs_nonneg _
    · exact le_refl 0
  have ha3 : (0 : ℚ) ≤ (if p.sThirst = 0 then (0 : ℚ) else |p.sThirst|) := by
    split
    · exact le_refl 0
    · exact abs_nonneg _
  have ha4 : (0 : ℚ) ≤ (if p.sHunger = 0 then (0 : ℚ) else |p.sHunger|) := by
    split
    · exact le_refl 0
    · exact abs_nonneg _
  simp only [playStatChanges, applyStatChanges]
  by_cases h1 : (0 : ℚ) < (if optTruthy p.sHygiene then |p.sHygiene.getD 0| else 0) <;>
    by_cases h2 : (0 : ℚ) < (if p.sThirst = 0 then (0 : ℚ) else |p.sThirst|) <;>
      by_cases h3 : (0 : ℚ) < (if p.sHunger = 0 then (0 : ℚ) else |p.sHunger|) <;>
        simp only [h1, h2, h3, if_true, if_false, ite_true, ite_false] <;>
          refine ⟨⟨?_, ?_⟩, ⟨?_, ?_⟩, ⟨?_, ?_⟩, ⟨?_, ?_⟩, ⟨?_, ?_⟩⟩ <;>
            simp only [Option.getD_some, Option.getD_none] <;>
              first
                | linarith
                | (norm_num [le_max_iff, max_le_iff, le_min_iff, min_le_iff] <;> linarith)

/-- Helper: completing a toy purchase keeps all stats in [0,100]. -/
theorem applyBuyToy_inRange (click s : PetStats)
    (hc : StatsInRange click) (hs : StatsInRange s) :
    StatsInRange (applyStatChanges s (buyToyStatChanges click)) := by
  obtain ⟨⟨hcu0, hcu1⟩, ⟨hcp0, hcp1⟩, ⟨hcy0, hcy1⟩, ⟨hce0, hce1⟩, ⟨hct0, hct1⟩⟩ := hc
  obtain ⟨⟨hsu0, hsu1⟩, ⟨hsp0, hsp1⟩, ⟨hsy0, hsy1⟩, ⟨hse0, hse1⟩, ⟨hst0, hst1⟩⟩ := hs
  simp only [buyToyStatChanges, applyStatChanges]
  refine ⟨⟨?_, ?_⟩, ⟨?_, ?_⟩, ⟨?_, ?_⟩, ⟨?_, ?_⟩, ⟨?_, ?_⟩⟩ <;>
    simp only [Option.getD_some, Option.getD_none] <;>
      first
        | linarith
        | (norm_num [le_max_iff, max_le_iff, le_min_iff, min_le_iff] <;> linarith)

/-- Helper: completing a bath keeps all stats in [0,100]. -/
theorem applyBath_inRange (b : BathCfg) (click s : PetStats)
    (hd1 : 0 ≤ b.sHygiene) (hc : StatsInRange click) (hs : StatsInRange s) :
    StatsInRange (applyStatChanges s (bathStatChanges b click)) := by
  obtain ⟨⟨hcu0, hcu1⟩, ⟨hcp0, hcp1⟩, ⟨hcy0, hcy1⟩, ⟨hce0, hce1⟩, ⟨hct0, hct1⟩⟩ := hc
  obtain ⟨⟨hsu0, hsu1⟩, ⟨hsp0, hsp1⟩, ⟨hsy0, hsy1⟩, ⟨hse0, hse1⟩, ⟨hst0, hst1⟩⟩ := hs
  simp only [bathStatChanges, applyStatChanges]
  split_ifs <;>
    refine ⟨⟨?_, ?_⟩, ⟨?_, ?_⟩, ⟨?_, ?_⟩, ⟨?_, ?_⟩, ⟨?_, ?_⟩⟩ <;>
      simp only [Option.getD_some, Option.getD_none] <;>
        first
          | linarith
          | (norm_num [le_max_iff, max_le_iff, le_min_iff, min_le_iff] <;> linarith)

/-- Helper: completing a vet visit keeps all stats in [0,100]. -/
theorem applyVet_inRange (v : VetCfg) (click s : PetStats)
    (hd1 : 0 ≤ v.sHygiene) (hd2 : 0 ≤ v.sHappiness) (hd3 : 0 ≤ v.sEnergy)
    (hc : StatsInRange click) (hs : StatsInRange s) :
    StatsInRange (applyStatChanges s (vetStatChanges v click)) := by
  obtain ⟨⟨hcu0, hcu1⟩, ⟨hcp0, hcp1⟩, ⟨hcy0, hcy1⟩, ⟨hce0, hce1⟩, ⟨hct0, hct1⟩⟩ := hc
  obtain ⟨⟨hsu0, hsu1⟩, ⟨hsp0, hsp1⟩, ⟨hsy0, hsy1⟩, ⟨hse0, hse1⟩, ⟨hst0, hst1⟩⟩ := hs
  simp only [vetStatChanges, applyStatChanges]
  refine ⟨⟨?_, ?_⟩, ⟨?_, ?_⟩, ⟨?_, ?_⟩, ⟨?_, ?_⟩, ⟨?_, ?_⟩⟩ <;>
    simp only [Option.getD_some, Option.getD_none] <;>
      first
        | linarith
        | (norm_num [le_max_iff, max_le_iff, le_min_iff, min_le_iff] <;> linarith)

/-- Helper: completing a grooming keeps all stats in [0,100]. -/
theorem applyGrooming_inRange (g : GroomingCfg) (click s : PetStats)
    (hd1 : 0 ≤ g.sHygiene) (hc : StatsInRange click) (hs : StatsInRange s) :
    StatsInRange (applyStatChanges s (groomingStatChanges g click)) := by
  obtain ⟨⟨hcu0, hcu1⟩, ⟨hcp0, hcp1⟩, ⟨hcy0, hcy1⟩, ⟨hce0, hce1⟩, ⟨hct0, hct1⟩⟩ := hc
  obtain ⟨⟨hsu0, hsu1⟩, ⟨hsp0, hsp1⟩, ⟨hsy0, hsy1⟩, ⟨hse0, hse1⟩, ⟨hst0, hst1⟩⟩ := hs
  simp only [groomingStatChanges, applyStatChanges]
  split_ifs <;>
    refine ⟨⟨?_, ?_⟩, ⟨?_, ?_⟩, ⟨?_, ?_⟩, ⟨?_, ?_⟩, ⟨?_, ?_⟩⟩ <;>
      simp only [Option.getD_some, Option.getD_none] <;>
        first
          | linarith
          | (norm_num [le_max_iff, max_le_iff, le_min_iff, min_le_iff] <;> linarith)

/-- Helper: the offline catch-up keeps all stats in [0,100]. -/
theorem catchUpStats_inRange (hr : ℕ) (hours : ℚ) (saved : PetStats)
    (hh : 0 ≤ hours) (hs : StatsInRange saved) :
    StatsInRange (catchUpStats hr hours saved) := by
  obtain ⟨⟨hsu0, hsu1⟩, ⟨hsp0, hsp1⟩, ⟨hsy0, hsy1⟩, ⟨hse0, hse1⟩, ⟨hst0, hst1⟩⟩ := hs
  have hthirst : (0 : ℚ) ≤ (if saved.thirst = 0 then 80 else saved.thirst) ∧
      (if saved.thirst = 0 then (80 : ℚ) else saved.thirst) ≤ 100 := by
    constructor
    · split
      · norm_num
      · exact hst0
    · split
      · norm_num
      · exact hst1
  have b1 := calculateDecay_bounds hr saved.hunger 1 hours hsu0 (by norm_num) hh
  have b2 := calculateDecay_bounds hr saved.happiness 0.5 hours hsp0 (by norm_num) hh
  have b3 := calculateDecay_bounds hr saved.hygiene 0.3 hours hsy0 (by norm_num) hh
  have b4 := calculateDecay_bounds hr saved.energy 0.4 hours hse0 (by norm_num) hh
  have b5 := calculateDecay_bounds hr (if saved.thirst = 0 then 80 else saved.thirst) 2 hours
    hthirst.1 (by norm_num) hh
  exact ⟨⟨b1.1, b1.2.trans hsu1⟩, ⟨b2.1, b2.2.trans hsp1⟩, ⟨b3.1, b3.2.trans hsy1⟩,
    ⟨b4.1, b4.2.trans hse1⟩, ⟨b5.1, b5.2.trans hthirst.2⟩⟩

/-- C1: every producer of a new stat vector keeps all five fields in [0,100]:
the awake decay tick (for nonnegative profile rates), the asleep decay tick
(for a sleep window of at least an hour), every action completion merge of
click-time stat changes into completion-time stats (for the catalog sign
conditions), and the offline catch-up over a nonnegative elapsed duration. -/
theorem stats_stay_in_range :
    (∀ (cfg : PetConfig) (day : Bool) (msr : ℚ) (s : PetStats),
      RatesNonneg cfg → StatsInRange s → StatsInRange (decayTickAwake cfg day msr s)) ∧
    (∀ (cfg : PetConfig) (s : PetStats),
      RatesNonneg cfg → 1 ≤ sleepDurationHours cfg → StatsInRange s →
        StatsInRange (decayTickAsleep cfg s)) ∧
    (∀ (k : AKind) (cfg : PetConfig) (click s : PetStats),
      DeltasOK cfg → StatsInRange click → StatsInRange s →
        StatsInRange (applyStatChanges s (statChangesFor k cfg click))) ∧
    (∀ (hr : ℕ) (hours : ℚ) (saved : PetStats),
      0 ≤ hours → StatsInRange saved → StatsInRange (catchUpStats hr hours saved)) := by
  refine ⟨decayTickAwake_inRange, decayTickAsleep_inRange, ?_, catchUpStats_inRange⟩
  intro k cfg click s hd hc hs
  obtain ⟨d1, d2, d3, d4, d5, d6, d7, d8, d9, d10, d11, d12⟩ := hd
  cases k
  · exact applyFeed_inRange cfg.actions.feed click s d1 d2 d3 hc hs
  · exact applyWater_inRange cfg.actions.water click s d4 d5 hc hs
  · exact applyExercise_inRange cfg.actions.exercise click s d6 hc hs
  · exact applyPlay_inRange cfg.actions.play click s d7 hc hs
  · exact applyBuyToy_inRange click s hc hs
  · exact applyBath_inRange cfg.actions.bath click s d8 hc hs
  · exact applyVet_inRange cfg.actions.vetVisit click s d10 d11 d12 hc hs
  · exact applyGrooming_inRange cfg.actions.grooming click s d9 hc hs

/-- C1 witness: all four range statements applied to the dog profile at its
initial stats (awake daytime tick, asleep tick, feed completion, two-hour
catch-up at noon). -/
theorem stats_stay_in_range_witness :
    StatsInRange (decayTickAwake dogConfig true 0 dogConfig.initialStats) ∧
      StatsInRange (decayTickAsleep dogConfig dogConfig.initialStats) ∧
      StatsInRange (applyStatChanges dogConfig.initialStats
        (statChangesFor .feed dogConfig dogConfig.initialStats)) ∧
      StatsInRange (catchUpStats 12 2 dogConfig.initialStats) := by
  have hrange : StatsInRange dogConfig.initialStats := by
    norm_num [StatsInRange, InRange01, dogConfig]
  have hrates : RatesNonneg dogConfig := by norm_num [RatesNonneg, dogConfig]
  exact ⟨stats_stay_in_range.1 dogConfig true 0 dogConfig.initialStats hrates hrange,
    stats_stay_in_range.2.1 dogConfig dogConfig.initialStats hrates
      (by norm_num [sleepDurationHours, dogConfig]) hrange,
    stats_stay_in_range.2.2.1 .feed dogConfig dogConfig.initialStats dogConfig.initialStats
      (by norm_num [DeltasOK, dogConfig]) hrange hrange,
    stats_stay_in_range.2.2.2 12 2 dogConfig.initialStats (by norm_num) hrange⟩

/-- C9: evaluation of the toy-break penalty scheduling at the scenario of the
claim. Play can only start with a toy, so the captured hasToy is true, and
the delayed check tests that stale captured value: the penalty fires zero
times even when the toy broke and no replacement was bought in the window. -/
theorem toy_penalty_stale_closure :
    toyPenaltyApplications true true false = 0 ∧
      (∀ toyBroke liveHasToy, toyPenaltyApplications toyBroke true liveHasToy = 0) := by
  refine ⟨rfl, ?_⟩
  intro toyBroke liveHasToy
  cases toyBroke <;> rfl

/-- Helper: the immediate effects of `handleAction` on a click: the run is
marked active with the given label, the cost is charged, and the pet stats
are untouched. -/
theorem handleActionClick_fields (label : String) (cost dur : ℚ) (st : DashState) :
    (handleActionClick label cost dur st).totalSpent = st.totalSpent + cost ∧
      (handleActionClick label cost dur st).activeAction = some label ∧
      (handleActionClick label cost dur st).stats = st.stats := by
  simp only [handleActionClick]
  split_ifs <;> exact ⟨rfl, rfl, rfl⟩

/-- Helper: the pre-click event only touches the event log. -/
theorem preClickState_fields (k : AKind) (st : DashState) :
    (preClickState k st).totalSpent = st.totalSpent ∧
      (preClickState k st).activeAction = st.activeAction ∧
      (preClickState k st).stats = st.stats := by
  cases k <;> simp [preClickState, preClickEvent]

/-- Helper: while an action run is active, every tile is disabled. -/
theorem disabled_of_active (k : AKind) (st : DashState) (now : ℚ)
    (h : st.activeAction.isSome = true) : disabledFor k st now = true := by
  cases k <;> simp [disabledFor, h]

/-- C3: an attempt at any action kind either fails its precondition gate and
leaves the whole state unchanged (nothing is charged), or passes the gate,
charges exactly the click cost and marks the action run active with its label
(pet stats untouched at click time); and while a run is active the gate of
every kind rejects, so a second attempt is always a no-op and at most one run
is ever active. -/
theorem attempt_gate (k : AKind) (st : DashState) (now : ℚ) :
    (disabledFor k st now = true → attempt k st now = st) ∧
    (disabledFor k st now = false →
      (attempt k st now).totalSpent = st.totalSpent + clickCost k st ∧
      (attempt k st now).activeAction = some (actionLabel k st) ∧
      (attempt k st now).stats = st.stats) ∧
    (st.activeAction.isSome = true → attempt k st now = st) := by
  refine ⟨?_, ?_, ?_⟩
  · intro h
    simp [attempt, h]
  · intro h
    obtain ⟨hp1, hp2, hp3⟩ := preClickState_fields k st
    obtain ⟨hh1, hh2, hh3⟩ := handleActionClick_fields (actionLabel k st) (clickCost k st)
      (clickDuration k st) (preClickState k st)
    simp only [attempt, h, Bool.false_eq_true, if_false]
    exact ⟨by rw [hh1, hp1], hh2, by rw [hh3, hp3]⟩
  · intro h
    simp [attempt, disabled_of_active k st now h]

/-- C3 witness: the gate applied at a concrete dog state. With a run already
active the attempt is the identity; with the gate open (hungry, awake, idle
dog below 120 feeds) the feed attempt charges the zero cost and starts the
"Feeding" run. -/
theorem attempt_gate_witness :
    attempt .feed
        { petType := .dog, name := "Rex", stats := ⟨10, 50, 50, 50, 50⟩,
          activeAction := some "Bath", actionTimer := 10, totalSpent := 5,
          isSleeping := false, hasToy := true, feedCount := 0, lastWalkTime := 0,
          lastBathTime := 0, lastTrimNailsTime := 0, events := [] } 0 =
      { petType := .dog, name := "Rex", stats := ⟨10, 50, 50, 50, 50⟩,
        activeAction := some "Bath", actionTimer := 10, totalSpent := 5,
        isSleeping := false, hasToy := true, feedCount := 0, lastWalkTime := 0,
        lastBathTime := 0, lastTrimNailsTime := 0, events := [] } ∧
    (attempt .feed
        { petType := .dog, name := "Rex", stats := ⟨10, 50, 50, 50, 50⟩,
          activeAction := none, actionTimer := 0, totalSpent := 5,
          isSleeping := false, hasToy := true, feedCount := 0, lastWalkTime := 0,
          lastBathTime := 0, lastTrimNailsTime := 0, events := [] } 0).totalSpent = 5 + 0 ∧
    (attempt .feed
        { petType := .dog, name := "Rex", stats := ⟨10, 50, 50, 50, 50⟩,
          activeAction := none, actionTimer := 0, totalSpent := 5,
          isSleeping := false, hasToy := true, feedCount := 0, lastWalkTime := 0,
          lastBathTime := 0, lastTrimNailsTime := 0, events := [] } 0).activeAction =
      some "Feeding" := by
  refine ⟨(attempt_gate .feed _ 0).2.2 rfl, ?_, ?_⟩
  · have h := ((attempt_gate .feed
      { petType := .dog, name := "Rex", stats := ⟨10, 50, 50, 50, 50⟩,
        activeAction := none, actionTimer := 0, totalSpent := 5,
        isSleeping := false, hasToy := true, feedCount := 0, lastWalkTime := 0,
        lastBathTime := 0, lastTrimNailsTime := 0, events := [] } 0).2.1
      (by norm_num [disabledFor, petConfigFor, dogConfig])).1
    rw [h]
    norm_num [clickCost, feedCostFor]
  · exact (((attempt_gate .feed _ 0).2.1
      (by norm_num [disabledFor, petConfigFor, dogConfig])).2.1).trans
      (by norm_num [actionLabel])

end VPet
